import Mathlib

/-!
Shallow embedding of `py3status/modules/external_script.py`.

The module runs an external command and turns its raw output into a
status-line display item.  In `text` input format the first line becomes the
displayed text (optionally stripped and numerically converted) and a second
line matching `^#[0-9a-fA-F]{6}$` becomes the item color; in `i3bar` input
format the raw output is handed to `json.loads` and the parsed object is
returned as-is.  A click on the configured notification button re-emits the
last stored raw output as a notification.

External collaborators (the `py3` helper and `json.loads`) are modelled as
explicit inputs or abstract functions; the behaviour of the module body is
translated statement by statement from the Python source.
-/

namespace ExternalScript

/-! ## Python string primitives used by the module -/

/-- Characters treated as line boundaries by Python `str.splitlines`:
LF, CR, vertical tab, form feed, FS, GS, RS, NEL, LINE SEPARATOR and
PARAGRAPH SEPARATOR (CRLF is treated as a single boundary below). -/
def isLineBreak (c : Char) : Bool :=
  c = '\n' || c = '\r' || c = '\x0b' || c = '\x0c' ||
  c = '\x1c' || c = '\x1d' || c = '\x1e' || c = '\x85' ||
  c = '\u2028' || c = '\u2029'

/-- Accumulator worker for `splitlines`; `acc` holds the current (reversed)
line.  A trailing line break does not open a new empty line, matching
Python (`"a\n".splitlines() == ["a"]`, `"".splitlines() == []`). -/
def splitlinesAux : List Char → List Char → List (List Char)
  | [], acc => if acc.isEmpty then [] else [acc.reverse]
  | '\r' :: '\n' :: rest, acc => acc.reverse :: splitlinesAux rest []
  | c :: rest, acc =>
      if isLineBreak c then acc.reverse :: splitlinesAux rest []
      else splitlinesAux rest (c :: acc)

/-- Python `str.splitlines()` (without keepends). -/
def splitlines (s : String) : List String :=
  (splitlinesAux s.data []).map fun l => String.mk l

/-- Whitespace stripped by Python `str.strip()` and tolerated around
numeric literals by `int()` / `float()` (ASCII portion; the module's
inputs are command output lines). -/
def isPySpace (c : Char) : Bool :=
  c = ' ' || c = '\t' || c = '\n' || c = '\r' || c = '\x0b' || c = '\x0c'

/-- Strip leading and trailing whitespace from a character list. -/
def pyStripList (l : List Char) : List Char :=
  ((l.dropWhile isPySpace).reverse.dropWhile isPySpace).reverse

/-- Python `str.strip()`. -/
def pyStrip (s : String) : String :=
  String.mk (pyStripList s.data)

/-- A character of the class `[0-9a-fA-F]`. -/
def isHexDigitChar (c : Char) : Bool :=
  c.isDigit || ('a' ≤ c && c ≤ 'f') || ('A' ≤ c && c ≤ 'F')

/-- Full match of the character list against `#[0-9a-fA-F]{6}`. -/
def colorFullMatch : List Char → Bool
  | '#' :: rest => rest.length = 6 && rest.all isHexDigitChar
  | _ => false

/-- The spec pattern `^#[0-9a-fA-F]{6}$` read as an anchored full match of
the whole string. -/
def matchesColorPattern (s : String) : Bool :=
  colorFullMatch s.data

/-- Python `re.search(r"^#[0-9a-fA-F]{6}$", s)` viewed as a Boolean: with
no MULTILINE flag `^` only matches at the start of the string, and `$`
matches at the end of the string or just before a single trailing
newline. -/
def reSearchColor (s : String) : Bool :=
  colorFullMatch s.data ||
  (if s.data.getLast? = some '\n' then colorFullMatch s.data.dropLast else false)

/-- The second line (`output_lines[1]`) of a split raw output, as read by
the module when at least two lines are present. -/
def secondLine (raw : String) : String :=
  (splitlines raw).getD 1 ""

/-! ## Python numeric-literal parsing (`int(str)` and `float(str)`)

Python's `int()` and `float()` accept optional surrounding whitespace and
an optional sign; digit groups may contain single underscores between
digits.  `float()` additionally accepts a fraction, an exponent, and the
special spellings `inf`, `infinity` and `nan` (case-insensitive).  Only
ASCII digits are modelled. -/

/-- Consume an optional sign, returning whether it was `-` and the rest. -/
def signVal : List Char → Bool × List Char
  | '+' :: rest => (false, rest)
  | '-' :: rest => (true, rest)
  | l => (false, l)

/-- Consume further digits of a digit group (single underscores allowed
between digits), accumulating the value and the digit count. -/
def takeDigitsAux : List Char → Nat → Nat → Nat × Nat × List Char
  | '_' :: c :: rest, acc, k =>
      if c.isDigit then takeDigitsAux rest (acc * 10 + (c.toNat - 48)) (k + 1)
      else (acc, k, '_' :: c :: rest)
  | c :: rest, acc, k =>
      if c.isDigit then takeDigitsAux rest (acc * 10 + (c.toNat - 48)) (k + 1)
      else (acc, k, c :: rest)
  | [], acc, k => (acc, k, [])

/-- Consume a Python `digitpart` (`digit (["_"] digit)*`) prefix, returning
its value, its digit count and the remaining characters; `none` if the
input does not start with a digit. -/
def takeDigitpart (l : List Char) : Option (Nat × Nat × List Char) :=
  match l with
  | c :: rest => if c.isDigit then some (takeDigitsAux rest (c.toNat - 48) 1) else none
  | [] => none

/-- Python `int(s)` for a string argument: optional surrounding whitespace,
optional sign, then a base-10 digit part spanning the whole rest. -/
def pyIntParse (s : String) : Option Int :=
  let l := pyStripList s.data
  let p := signVal l
  match takeDigitpart p.2 with
  | some (n, _, []) => some (if p.1 then -(n : Int) else (n : Int))
  | _ => none

/-- Value of a Python float literal, kept exact: the special values and the
exact rational denoted by the literal (the module never computes with the
float, it only stores and formats it). -/
inductive PyFloat where
  | finite (q : Rat)
  | inf (neg : Bool)
  | nan
deriving DecidableEq

/-- Parse an optional exponent suffix (`e`/`E`, optional sign, digit part)
spanning the rest of the input, and apply it to the mantissa `m`. -/
def applyExp (m : Rat) : List Char → Option Rat
  | [] => some m
  | 'e' :: rest => applyExpDigits m rest
  | 'E' :: rest => applyExpDigits m rest
  | _ => none
where
  /-- Parse the sign and digit part of an exponent and scale `m`. -/
  applyExpDigits (m : Rat) (rest : List Char) : Option Rat :=
    let p := signVal rest
    match takeDigitpart p.2 with
    | some (e, _, []) => some (if p.1 then m / (10 : Rat) ^ e else m * (10 : Rat) ^ e)
    | _ => none

/-- Grammar of a non-special Python float literal after the sign:
`(digitpart ["." [digitpart]] | "." digitpart) [exponent]`, evaluated
exactly. -/
def pyFloatCore (l : List Char) : Option Rat :=
  match takeDigitpart l with
  | some (ip, _, rest) =>
      match rest with
      | '.' :: rest2 =>
          match takeDigitpart rest2 with
          | some (fp, fk, rest3) => applyExp ((ip : Rat) + (fp : Rat) / (10 : Rat) ^ fk) rest3
          | none => applyExp (ip : Rat) rest2
      | _ => applyExp (ip : Rat) rest
  | none =>
      match l with
      | '.' :: rest2 =>
          match takeDigitpart rest2 with
          | some (fp, fk, rest3) => applyExp ((fp : Rat) / (10 : Rat) ^ fk) rest3
          | none => none
      | _ => none

/-- Python `float(s)` for a string argument: optional surrounding
whitespace, optional sign, then a float literal or one of the special
spellings `inf`, `infinity`, `nan` (case-insensitive). -/
def pyFloatParse (s : String) : Option PyFloat :=
  let l := pyStripList s.data
  let p := signVal l
  let low := p.2.map Char.toLower
  if low = "inf".data || low = "infinity".data then some (.inf p.1)
  else if low = "nan".data then some .nan
  else
    match pyFloatCore p.2 with
    | some q => some (.finite (if p.1 then -q else q))
    | none => none

/-! ## Data model of the module -/

/-- The module's configuration parameters, with the class defaults of
`Py3status`.  `button_show_notification = none` models the Python default
`None` (no button triggers a notification; an event button, an integer,
never compares equal to `None`). -/
structure Config where
  button_show_notification : Option Nat := none
  cache_timeout : Nat := 15
  convert_numbers : Bool := true
  format : String := "{output}"
  input_format : String := "text"
  localize : Bool := true
  script_path : Option String := none
  strip_output : Bool := false
deriving DecidableEq

/-- The error raised by `py3.command_output` when the command fails, with
its captured stdout (`output`) and stderr (`error`); an absent stream is
the empty string, which is falsy in Python. -/
structure CommandError where
  output : String
  error : String
deriving DecidableEq

/-- Mutable instance state: `self.output`, the raw output of the last
successful command execution.  `none` models the attribute not existing
yet (no successful refresh has ever assigned it). -/
structure ModuleState where
  output : Option String
deriving DecidableEq

/-- A JSON value as produced by `json.loads`. -/
inductive JsonVal where
  | null
  | bool (b : Bool)
  | num (q : Rat)
  | str (s : String)
  | arr (xs : List JsonVal)
  | obj (fields : List (String × JsonVal))

/-- Whether a JSON value is an object carrying the given key. -/
def jsonHasKey (j : JsonVal) (k : String) : Bool :=
  match j with
  | .obj fields => fields.any fun f => f.1 = k
  | _ => false

/-- A Python value the module can pass as the `output` placeholder:
the line string, or the result of `int()` / `float()` conversion. -/
inductive PyVal where
  | str (s : String)
  | int (n : Int)
  | float (f : PyFloat)
deriving DecidableEq

/-- The call the module makes to `py3.safe_format` (an external template
collaborator): the template string and the placeholder mapping
`{"output": output, "lines": lines}` it is given.  The collaborator's
substitution semantics are outside the module. -/
structure FormatCall where
  template : String
  output : PyVal
  lines : Nat
deriving DecidableEq

/-- The `response` dictionary built in text mode:
`cached_until`, optional `color`, and `full_text`. -/
structure TextResponse where
  cached_until : Nat
  color : Option String
  full_text : FormatCall
deriving DecidableEq

/-- Outcome of one `external_script` refresh cycle.
`errorReported` models `py3.error` (modelled from the spec: the error is
surfaced through the error-reporting interface and the cycle is aborted,
so no display item is produced; the `py3` helper itself is not among the
sources).  `jsonError` models `json.loads` raising on malformed input. -/
inductive RefreshResult where
  | errorReported (msg : String)
  | i3bar (j : JsonVal)
  | jsonError (msg : String)
  | item (r : TextResponse)

/-- The diagnostic text chosen on command failure:
Python `e.output or e.error` on strings takes `e.output` when it is
non-empty (truthy), else `e.error`. -/
def errText (e : CommandError) : String :=
  if e.output ≠ "" then e.output else e.error

/-- The value converted from the (possibly stripped) first output line
when `convert_numbers` is on: try `int(output)`, on `ValueError` try
`float(output)`, on `ValueError` keep the string. -/
def convertOutput (output : String) : PyVal :=
  match pyIntParse output with
  | some n => .int n
  | none =>
      match pyFloatParse output with
      | some f => .float f
      | none => .str output

/-- The text-mode `response` dictionary built from the raw output:
`cached_until = py3.time_in(cache_timeout)` (modelled from the spec as
current time plus the timeout), a `color` key only when there are at
least two lines and the second matches the color pattern, and
`full_text = py3.safe_format(format, mapping)` recorded as the call made. -/
def textResponse (cfg : Config) (raw : String) (now : Nat) : TextResponse :=
  let output_lines := splitlines raw
  { cached_until := now + cfg.cache_timeout
    color :=
      if 1 < output_lines.length then
        if reSearchColor (output_lines.getD 1 "") then some (output_lines.getD 1 "")
        else none
      else none
    full_text :=
      { template := cfg.format
        output :=
          if output_lines.isEmpty then .str ""
          else
            let o := output_lines.getD 0 ""
            let o2 := if cfg.strip_output then pyStrip o else o
            if cfg.convert_numbers then convertOutput o2 else .str o2
        lines := output_lines.length } }

/-- One refresh cycle of `Py3status.external_script`.  The command
execution (`py3.command_output`, an external collaborator invoked with
`script_path`, `shell=True` and `localized=localize`) is passed in as its
result `cmdResult`; `json.loads` is passed in as the function `jsonLoads`;
`now` is the current time used by `py3.time_in`.  On failure the stored
output is untouched (the assignment never happens) and `py3.error`
aborts the cycle; on success `self.output` is overwritten first, then the
configured input format selects the i3bar pass-through or the text
parser. -/
def external_script (jsonLoads : String → Except String JsonVal)
    (cfg : Config) (st : ModuleState)
    (cmdResult : Except CommandError String) (now : Nat) :
    RefreshResult × ModuleState :=
  match cmdResult with
  | .error e => (.errorReported (errText e), st)
  | .ok raw =>
      let st' : ModuleState := { st with output := some raw }
      if cfg.input_format = "i3bar" then
        match jsonLoads raw with
        | .ok j => (.i3bar j, st')
        | .error m => (.jsonError m, st')
      else
        (.item (textResponse cfg raw now), st')

/-- The Python comparison `button == self.button_show_notification`:
an unset configuration (`None`) compares unequal to every button. -/
def buttonMatches (cfg : Config) (button : Nat) : Bool :=
  match cfg.button_show_notification with
  | some b => button == b
  | none => false

/-- Calls `on_click` makes on the `py3` collaborators. -/
inductive Effect where
  | notifyUser (text : String)
  | preventRefresh
deriving DecidableEq

/-- A Python exception escaping `on_click`. -/
inductive PyError where
  | attributeError
deriving DecidableEq

/-- `Py3status.on_click`: on the configured notification button it
evaluates `self.output` (raising `AttributeError` when no successful
refresh ever assigned it), then calls `py3.notify_user` with it and
`py3.prevent_refresh`; on any other button it does nothing.  The result
lists the collaborator calls in order. -/
def on_click (cfg : Config) (st : ModuleState) (button : Nat) :
    Except PyError (List Effect) :=
  if buttonMatches cfg button then
    match st.output with
    | some out => .ok [.notifyUser out, .preventRefresh]
    | none => .error .attributeError
  else
    .ok []

/-- A sample parse function standing in for `json.loads` in concrete
instantiations: it parses the two JSON documents used as concrete inputs
below, consistently with `json.loads`, and rejects everything else. -/
def jsonLoadsStub : String → Except String JsonVal := fun s =>
  if s = "\x7b\x7d" then .ok (.obj [])
  else if s = "\x7b\"full_text\": \"hi\"\x7d" then .ok (.obj [("full_text", .str "hi")])
  else .error "Expecting value"

/-! ## Helper lemmas -/

set_option maxHeartbeats 1000000 in
/-- Every line produced by `splitlinesAux` is free of line-break
characters, provided the accumulator is. -/
theorem splitlinesAux_no_break (l acc : List Char) :
    (∀ c ∈ acc, isLineBreak c = false) →
    ∀ line ∈ splitlinesAux l acc, ∀ c ∈ line, isLineBreak c = false := by
  induction l, acc using splitlinesAux.induct with
  | case1 acc hemp =>
      intro hacc line hline
      rw [splitlinesAux.eq_1, if_pos hemp] at hline
      simp at hline
  | case2 acc hemp =>
      intro hacc line hline c hc
      rw [splitlinesAux.eq_1, if_neg hemp] at hline
      simp only [List.mem_singleton] at hline
      subst hline
      exact hacc c (List.mem_reverse.mp hc)
  | case3 rest acc ih =>
      intro hacc line hline c hc
      rw [splitlinesAux.eq_2] at hline
      rcases List.mem_cons.mp hline with hline | hline
      · subst hline
        exact hacc c (List.mem_reverse.mp hc)
      · exact ih (by simp) line hline c hc
  | case4 c0 rest acc hpat hbreak ih =>
      intro hacc line hline c hc
      rw [splitlinesAux.eq_3 acc c0 rest hpat, if_pos hbreak] at hline
      rcases List.mem_cons.mp hline with hline | hline
      · subst hline
        exact hacc c (List.mem_reverse.mp hc)
      · exact ih (by simp) line hline c hc
  | case5 c0 rest acc hpat hbreak ih =>
      intro hacc line hline c hc
      rw [splitlinesAux.eq_3 acc c0 rest hpat, if_neg hbreak] at hline
      refine ih ?_ line hline c hc
      intro c' hc'
      rcases List.mem_cons.mp hc' with h | h
      · subst h
        simpa using hbreak
      · exact hacc c' h

/-- Every line of `splitlines` is free of line-break characters. -/
theorem splitlines_no_break (s : String) :
    ∀ line ∈ splitlines s, ∀ c ∈ line.data, isLineBreak c = false := by
  intro line hline c hc
  simp only [splitlines, List.mem_map] at hline
  obtain ⟨l, hl, rfl⟩ := hline
  exact splitlinesAux_no_break s.data [] (by simp) l hl c hc

/-- On a string without line-break characters, `re.search` with the color
pattern coincides with the anchored full match of the pattern. -/
theorem reSearchColor_eq_matches (s : String)
    (h : ∀ c ∈ s.data, isLineBreak c = false) :
    reSearchColor s = matchesColorPattern s := by
  unfold reSearchColor matchesColorPattern
  have hne : ¬s.data.getLast? = some '\n' := by
    intro hlast
    obtain ⟨hnil, heq⟩ := List.mem_getLast?_eq_getLast (l := s.data) (x := '\n') hlast
    have hmem : '\n' ∈ s.data := heq ▸ List.getLast_mem hnil
    have := h '\n' hmem
    simp [isLineBreak] at this
  simp [hne]

/-- On the module's second output line, the `re.search` test coincides
with the anchored color-pattern match (the line cannot contain a
newline). -/
theorem reSearchColor_secondLine (raw : String)
    (hlen : 2 ≤ (splitlines raw).length) :
    reSearchColor (secondLine raw) = matchesColorPattern (secondLine raw) := by
  have h1 : 1 < (splitlines raw).length := hlen
  have hmem : secondLine raw ∈ splitlines raw := by
    unfold secondLine
    rw [List.getD_eq_getElem?_getD, List.getElem?_eq_getElem h1]
    exact List.getElem_mem h1
  exact reSearchColor_eq_matches _ (splitlines_no_break raw _ hmem)

/-- Projection of the `color` field of the text-mode response. -/
theorem textResponse_color (cfg : Config) (raw : String) (now : Nat) :
    (textResponse cfg raw now).color =
      if 1 < (splitlines raw).length then
        if reSearchColor ((splitlines raw).getD 1 "") then
          some ((splitlines raw).getD 1 "")
        else none
      else none := rfl

/-- Projection of the `cached_until` field of the text-mode response. -/
theorem textResponse_cached_until (cfg : Config) (raw : String) (now : Nat) :
    (textResponse cfg raw now).cached_until = now + cfg.cache_timeout := rfl

/-- Projection of the `output` placeholder value of the text-mode
response. -/
theorem textResponse_output (cfg : Config) (raw : String) (now : Nat) :
    (textResponse cfg raw now).full_text.output =
      if (splitlines raw).isEmpty then .str ""
      else
        if cfg.convert_numbers then
          convertOutput
            (if cfg.strip_output then pyStrip ((splitlines raw).getD 0 "")
             else (splitlines raw).getD 0 "")
        else
          .str (if cfg.strip_output then pyStrip ((splitlines raw).getD 0 "")
                else (splitlines raw).getD 0 "") := rfl

/-- A refresh over a failing command reports the chosen diagnostic and
leaves the state alone. -/
theorem external_script_err (jsonLoads : String → Except String JsonVal)
    (cfg : Config) (st : ModuleState) (e : CommandError) (now : Nat) :
    external_script jsonLoads cfg st (.error e) now =
      (.errorReported (errText e), st) := rfl

/-- Unfolding of a refresh over a successful command: the raw output is
stored, then the input format selects the branch. -/
theorem external_script_ok (jsonLoads : String → Except String JsonVal)
    (cfg : Config) (st : ModuleState) (raw : String) (now : Nat) :
    external_script jsonLoads cfg st (.ok raw) now =
      (if cfg.input_format = "i3bar" then
        match jsonLoads raw with
        | .ok j => (.i3bar j, { st with output := some raw })
        | .error m => (.jsonError m, { st with output := some raw })
      else (.item (textResponse cfg raw now), { st with output := some raw })) :=
  rfl

/-- A refresh over a successful command in text mode stores the raw
output and yields the text-mode response. -/
theorem external_script_ok_text (jsonLoads : String → Except String JsonVal)
    (cfg : Config) (st : ModuleState) (raw : String) (now : Nat)
    (h : cfg.input_format ≠ "i3bar") :
    external_script jsonLoads cfg st (.ok raw) now =
      (.item (textResponse cfg raw now), { st with output := some raw }) := by
  simp [external_script, h]

/-- A refresh over a successful command in i3bar mode stores the raw
output and returns the parsed JSON value unmodified. -/
theorem external_script_i3bar_ok (jsonLoads : String → Except String JsonVal)
    (cfg : Config) (st : ModuleState) (raw : String) (now : Nat) (j : JsonVal)
    (h : cfg.input_format = "i3bar") (hj : jsonLoads raw = .ok j) :
    external_script jsonLoads cfg st (.ok raw) now =
      (.i3bar j, { st with output := some raw }) := by
  simp [external_script, h, hj]

/-! ## Claims -/

/-- C1: in text mode, for every raw output with at least two lines the
refresh yields a display item (no error is raised); when the second line
matches `^#[0-9a-fA-F]{6}$` the item's `color` equals that line exactly,
and when it does not match the `color` field is absent. -/
theorem C1_second_line_color (jsonLoads : String → Except String JsonVal)
    (cfg : Config) (st : ModuleState) (raw : String) (now : Nat)
    (htext : cfg.input_format = "text")
    (hlen : 2 ≤ (splitlines raw).length) :
    ∃ st',
      external_script jsonLoads cfg st (.ok raw) now =
        (.item (textResponse cfg raw now), st') ∧
      (matchesColorPattern (secondLine raw) = true →
        (textResponse cfg raw now).color = some (secondLine raw)) ∧
      (matchesColorPattern (secondLine raw) = false →
        (textResponse cfg raw now).color = none) := by
  have h1 : 1 < (splitlines raw).length := hlen
  have hcol := textResponse_color cfg raw now
  rw [if_pos h1] at hcol
  have hsearch := reSearchColor_secondLine raw hlen
  refine ⟨{ st with output := some raw }, ?_, ?_, ?_⟩
  · exact external_script_ok_text jsonLoads cfg st raw now (by rw [htext]; decide)
  · intro hm
    have hcond : reSearchColor ((splitlines raw).getD 1 "") = true := by
      show reSearchColor (secondLine raw) = true
      rw [hsearch, hm]
    rw [hcol, if_pos hcond]
    rfl
  · intro hm
    have hcond : reSearchColor ((splitlines raw).getD 1 "") = false := by
      show reSearchColor (secondLine raw) = false
      rw [hsearch, hm]
    rw [hcol, if_neg (by rw [hcond]; exact Bool.false_ne_true)]

/-- Witness for C1 at a concrete input: the two-line output
`"hello\n#FF0000"` yields an item whose color is `#FF0000`. -/
theorem C1_witness :
    ∃ st',
      external_script (fun _ => .error "unused") {} ⟨none⟩ (.ok "hello\n#FF0000") 0 =
        (.item (textResponse {} "hello\n#FF0000" 0), st') ∧
      (textResponse {} "hello\n#FF0000" 0).color = some "#FF0000" := by
  obtain ⟨st', hres, hpos, _⟩ :=
    C1_second_line_color (fun _ => .error "unused") {} ⟨none⟩ "hello\n#FF0000" 0 rfl
      (by decide)
  exact ⟨st', hres, by rw [show ("#FF0000" : String) = secondLine "hello\n#FF0000" by decide]; exact hpos (by decide)⟩

/-- C2: when the command execution fails, the error is surfaced through
the error-reporting channel with the captured stdout when present (non
empty), otherwise the captured stderr; no display item is produced for
that cycle and the output parser does not run (the stored raw output is
untouched, the cycle aborts at `py3.error`). -/
theorem C2_command_error_reported (jsonLoads : String → Except String JsonVal)
    (cfg : Config) (st : ModuleState) (e : CommandError) (now : Nat) :
    external_script jsonLoads cfg st (.error e) now =
      (.errorReported (if e.output = "" then e.error else e.output), st) ∧
    ∀ r : TextResponse,
      (external_script jsonLoads cfg st (.error e) now).1 ≠ .item r := by
  constructor
  · rw [external_script_err]
    by_cases h : e.output = "" <;> simp [errText, h]
  · intro r
    rw [external_script_err]
    simp

/-- C3: in i3bar mode, a raw output parsed by `json.loads` into a value
`j` is returned as the display item exactly (round-trip, identical
fields), and the result does not depend on the `format`, `localize`,
`strip_output`, `convert_numbers` or `button_show_notification` options,
nor on the stored state or the time (a second arbitrary i3bar
configuration yields the same item). -/
theorem C3_i3bar_passthrough (jsonLoads : String → Except String JsonVal)
    (cfg cfg' : Config) (st st' : ModuleState) (raw : String) (now now' : Nat)
    (j : JsonVal)
    (h : cfg.input_format = "i3bar") (h' : cfg'.input_format = "i3bar")
    (hj : jsonLoads raw = .ok j) :
    (external_script jsonLoads cfg st (.ok raw) now).1 = .i3bar j ∧
    (external_script jsonLoads cfg st (.ok raw) now).1 =
      (external_script jsonLoads cfg' st' (.ok raw) now').1 := by
  rw [external_script_i3bar_ok jsonLoads cfg st raw now j h hj,
    external_script_i3bar_ok jsonLoads cfg' st' raw now' j h' hj]
  exact ⟨rfl, rfl⟩

/-- Witness for C3 at a concrete input: the JSON document `"{}"` is
returned as the empty object, independently of the other options. -/
theorem C3_witness :
    (external_script jsonLoadsStub { input_format := "i3bar" } ⟨none⟩
        (.ok "\x7b\x7d") 0).1 = .i3bar (.obj []) ∧
    (external_script jsonLoadsStub { input_format := "i3bar" } ⟨none⟩
        (.ok "\x7b\x7d") 0).1 =
      (external_script jsonLoadsStub
          { input_format := "i3bar", format := "x", localize := false,
            strip_output := true, convert_numbers := false,
            button_show_notification := some 3 }
          ⟨some "old"⟩ (.ok "\x7b\x7d") 9).1 :=
  C3_i3bar_passthrough jsonLoadsStub _ _ _ _ _ _ _ _ rfl rfl rfl

/-- C4 counterexample: with a configured notification button and no
successful refresh ever stored (`self.output` undefined), a click on
that button raises `AttributeError` — the handler does crash at this
concrete input, contrary to the claim. -/
theorem C4_counterexample :
    on_click { button_show_notification := some 1 } ⟨none⟩ 1 =
      .error .attributeError := rfl

/-- C4 amended: handling a click completes without raising whenever a
successful refresh has stored a raw output, or the clicked button
differs from the configured notification button (in particular whenever
the notification button is unset); only a matching click before any
successful refresh raises. -/
theorem C4_no_crash_amended (cfg : Config) (st : ModuleState) (button : Nat)
    (h : st.output.isSome = true ∨ buttonMatches cfg button = false) :
    ∃ effs, on_click cfg st button = .ok effs := by
  unfold on_click
  rcases h with h | h
  · cases hb : buttonMatches cfg button
    · simp
    · cases ho : st.output with
      | none => rw [ho] at h; simp at h
      | some out => simp [ho]
  · simp [h]

/-- Witness for C4 at a concrete input: with a stored raw output, a
click on the configured notification button completes without raising. -/
theorem C4_witness :
    ∃ effs,
      on_click { button_show_notification := some 1 } ⟨some "out"⟩ 1 =
        .ok effs :=
  C4_no_crash_amended { button_show_notification := some 1 } ⟨some "out"⟩ 1
    (Or.inl rfl)

/-- C5 counterexample: in text mode with `convert_numbers` on and
`strip_output` off, the raw output `" 42 "` IS converted: the item's
`output` placeholder value is the integer 42, not the original string —
Python's `int()` itself tolerates surrounding whitespace, contrary to
the claim. -/
theorem C5_counterexample :
    (external_script jsonLoadsStub {} ⟨none⟩ (.ok " 42 ") 0).1 =
      .item { cached_until := 15, color := none,
              full_text :=
                { template := "{output}", output := .int 42, lines := 1 } } := rfl

/-- C5 amended: in text mode with numeric conversion enabled and
strip-output disabled, a first line that the conversion chain accepts —
an integer literal for `int()`, or otherwise a float literal for
`float()`, each possibly padded with whitespace since both parsers strip
surrounding whitespace themselves — is converted to that number;
strip-output trimming is not needed for the conversion. -/
theorem C5_padded_numeral_converts (jsonLoads : String → Except String JsonVal)
    (cfg : Config) (st : ModuleState) (raw : String) (now : Nat) (v : PyVal)
    (htext : cfg.input_format = "text")
    (hstrip : cfg.strip_output = false)
    (hconv : cfg.convert_numbers = true)
    (hne : (splitlines raw).isEmpty = false)
    (hnum :
      (∃ n, pyIntParse ((splitlines raw).getD 0 "") = some n ∧ v = .int n) ∨
      (pyIntParse ((splitlines raw).getD 0 "") = none ∧
        ∃ f, pyFloatParse ((splitlines raw).getD 0 "") = some f ∧
          v = .float f)) :
    (external_script jsonLoads cfg st (.ok raw) now).1 =
      .item (textResponse cfg raw now) ∧
    (textResponse cfg raw now).full_text.output = v := by
  constructor
  · rw [external_script_ok_text jsonLoads cfg st raw now (by rw [htext]; decide)]
  · rw [textResponse_output]
    simp only [hne, hstrip, hconv, Bool.false_eq_true, if_false, if_true]
    unfold convertOutput
    rcases hnum with ⟨n, hp, rfl⟩ | ⟨hpi, f, hpf, rfl⟩
    · rw [hp]
    · rw [hpi, hpf]

/-- Witness for C5 amended at the concrete inputs `" 42 "` (integer
path) and `" 3.14 "` (float path), both unstripped. -/
theorem C5_witness :
    ((external_script jsonLoadsStub {} ⟨none⟩ (.ok " 42 ") 3).1 =
        .item (textResponse {} " 42 " 3) ∧
      (textResponse {} " 42 " 3).full_text.output = .int 42) ∧
    ((external_script jsonLoadsStub {} ⟨none⟩ (.ok " 3.14 ") 3).1 =
        .item (textResponse {} " 3.14 " 3) ∧
      (textResponse {} " 3.14 " 3).full_text.output =
        .float (.finite (157 / 50))) := by
  constructor
  · exact C5_padded_numeral_converts jsonLoadsStub {} ⟨none⟩ " 42 " 3
      (.int 42) rfl rfl rfl (by decide) (Or.inl ⟨42, by decide, rfl⟩)
  · have h := C5_padded_numeral_converts jsonLoadsStub {} ⟨none⟩ " 3.14 " 3
      (.float (.finite
        (((3 : Nat) : Rat) + ((14 : Nat) : Rat) / (10 : Rat) ^ (2 : Nat))))
      rfl rfl rfl (by decide)
      (Or.inr ⟨by decide,
        ⟨.finite (((3 : Nat) : Rat) + ((14 : Nat) : Rat) / (10 : Rat) ^ (2 : Nat)),
          rfl, rfl⟩⟩)
    rw [show (((3 : Nat) : Rat) + ((14 : Nat) : Rat) / (10 : Rat) ^ (2 : Nat)) =
      157 / 50 by norm_num] at h
    exact h

/-- C6 counterexample: in i3bar mode the refresh returns the parsed JSON
object as the display item without adding any cache-expiry field — at
this concrete input the produced item has no `cached_until` key at all,
contrary to the claim's "in either input format". -/
theorem C6_counterexample :
    (external_script jsonLoadsStub { input_format := "i3bar" } ⟨none⟩
        (.ok "\x7b\"full_text\": \"hi\"\x7d") 5).1 =
      .i3bar (.obj [("full_text", .str "hi")]) ∧
    jsonHasKey (.obj [("full_text", .str "hi")]) "cached_until" = false :=
  ⟨rfl, rfl⟩

/-- C6 amended: every display item produced by a text-mode refresh
carries `cached_until` equal to the current time plus the configured
cache timeout; an i3bar-mode refresh instead returns the parsed object
as-is and adds no cache-expiry field. -/
theorem C6_cached_until_text (jsonLoads : String → Except String JsonVal)
    (cfg : Config) (st : ModuleState) (cmdResult : Except CommandError String)
    (now : Nat) (r : TextResponse)
    (h : (external_script jsonLoads cfg st cmdResult now).1 = .item r) :
    r.cached_until = now + cfg.cache_timeout := by
  match cmdResult with
  | .error e =>
      rw [external_script_err] at h
      cases h
  | .ok raw =>
      by_cases hf : cfg.input_format = "i3bar"
      · rw [external_script_ok, if_pos hf] at h
        cases hj : jsonLoads raw <;> rw [hj] at h <;> cases h
      · rw [external_script_ok_text jsonLoads cfg st raw now hf] at h
        cases h
        exact textResponse_cached_until cfg raw now

/-- Witness for C6 amended at a concrete input: a one-line text refresh
at time 7 with the default 15-second timeout expires at 22. -/
theorem C6_witness :
    (textResponse {} "hi" 7).cached_until = 7 + 15 :=
  C6_cached_until_text jsonLoadsStub {} ⟨none⟩ (.ok "hi") 7
    (textResponse {} "hi" 7) rfl

/-- C7: the stored raw output is updated only on a successful command
execution — a failing cycle leaves the state exactly as it was, so a
later notification click behaves as before the failed cycle; and a
successful cycle overwrites it with the fresh raw output. -/
theorem C7_failed_cycle_preserves_output
    (jsonLoads : String → Except String JsonVal)
    (cfg : Config) (st : ModuleState) (e : CommandError) (now : Nat) :
    (external_script jsonLoads cfg st (.error e) now).2 = st ∧
    (∀ b, on_click cfg (external_script jsonLoads cfg st (.error e) now).2 b =
      on_click cfg st b) ∧
    (∀ raw, (external_script jsonLoads cfg st (.ok raw) now).2.output =
      some raw) := by
  refine ⟨rfl, fun b => rfl, fun raw => ?_⟩
  rw [external_script_ok]
  by_cases hf : cfg.input_format = "i3bar"
  · rw [if_pos hf]
    cases hj : jsonLoads raw <;> rfl
  · rw [if_neg hf]

/-- C8: in text mode with numeric conversion enabled, the normalizer
tries the integer parse first, on failure the float parse, and on
failure of both leaves the string unchanged (it is a total function, so
it never raises); in the pipeline it receives the first line after
strip-output trimming, never before; and `"42"` yields the integer 42,
`"3.14"` the float 3.14, `"abc"` the unchanged string. -/
theorem C8_numeric_normalizer :
    (∀ s n, pyIntParse s = some n → convertOutput s = .int n) ∧
    (∀ s f, pyIntParse s = none → pyFloatParse s = some f →
      convertOutput s = .float f) ∧
    (∀ s, pyIntParse s = none → pyFloatParse s = none →
      convertOutput s = .str s) ∧
    (∀ (jsonLoads : String → Except String JsonVal) (cfg : Config)
        (st : ModuleState) (raw : String) (now : Nat),
      cfg.input_format = "text" → cfg.strip_output = true →
      cfg.convert_numbers = true → (splitlines raw).isEmpty = false →
      (external_script jsonLoads cfg st (.ok raw) now).1 =
        .item (textResponse cfg raw now) ∧
      (textResponse cfg raw now).full_text.output =
        convertOutput (pyStrip ((splitlines raw).getD 0 ""))) ∧
    convertOutput "42" = .int 42 ∧
    convertOutput "3.14" = .float (.finite (157 / 50)) ∧
    convertOutput "abc" = .str "abc" := by
  refine ⟨?_, ?_, ?_, ?_, by decide, ?_, by decide⟩
  · intro s n h
    unfold convertOutput
    rw [h]
  · intro s f hi hf
    unfold convertOutput
    rw [hi, hf]
  · intro s hi hf
    unfold convertOutput
    rw [hi, hf]
  · intro jsonLoads cfg st raw now htext hstrip hconv hne
    constructor
    · rw [external_script_ok_text jsonLoads cfg st raw now (by rw [htext]; decide)]
    · rw [textResponse_output]
      simp only [hne, hstrip, hconv, Bool.false_eq_true, if_false, if_true]
  · have hval : convertOutput "3.14" =
        .float (.finite (((3 : Nat) : Rat) + ((14 : Nat) : Rat) / (10 : Rat) ^ (2 : Nat))) := rfl
    rw [hval, show (((3 : Nat) : Rat) + ((14 : Nat) : Rat) / (10 : Rat) ^ (2 : Nat)) =
      157 / 50 by norm_num]

/-- Witness for C8 at concrete inputs: integer-first conversion, float
fallback, string fallback, and conversion applied to the stripped first
line in the pipeline. -/
theorem C8_witness :
    convertOutput "7" = .int 7 ∧
    convertOutput ".5" = .float (.finite (1 / 2)) ∧
    convertOutput "x" = .str "x" ∧
    ((external_script jsonLoadsStub { strip_output := true } ⟨none⟩
        (.ok " 9 \nz") 0).1 =
      .item (textResponse { strip_output := true } " 9 \nz" 0) ∧
    (textResponse { strip_output := true } " 9 \nz" 0).full_text.output =
      convertOutput (pyStrip ((splitlines " 9 \nz").getD 0 ""))) := by
  refine ⟨C8_numeric_normalizer.1 "7" 7 (by decide), ?_,
    C8_numeric_normalizer.2.2.1 "x" (by decide) (by decide),
    C8_numeric_normalizer.2.2.2.1 jsonLoadsStub { strip_output := true } ⟨none⟩
      " 9 \nz" 0 rfl rfl rfl (by decide)⟩
  have h := C8_numeric_normalizer.2.1 ".5"
    (.finite (((5 : Nat) : Rat) / (10 : Rat) ^ (1 : Nat))) (by decide) rfl
  rw [show (((5 : Nat) : Rat) / (10 : Rat) ^ (1 : Nat)) = 1 / 2 by norm_num] at h
  exact h

/-- C9: a click whose button equals the configured notification button
makes exactly the two calls, in order: one notification carrying the
stored raw output, then one refresh suppression; a click on any other
button, or with the notification button unset, makes no call at all. -/
theorem C9_click_effects :
    (∀ (cfg : Config) (st : ModuleState) (s : String) (b : Nat),
      st.output = some s → buttonMatches cfg b = true →
      on_click cfg st b = .ok [.notifyUser s, .preventRefresh]) ∧
    (∀ (cfg : Config) (st : ModuleState) (b : Nat),
      buttonMatches cfg b = false → on_click cfg st b = .ok []) ∧
    (∀ (cfg : Config) (b : Nat),
      cfg.button_show_notification = none → buttonMatches cfg b = false) := by
  refine ⟨?_, ?_, ?_⟩
  · intro cfg st s b ho hb
    unfold on_click
    rw [hb, ho]
    rfl
  · intro cfg st b hb
    unfold on_click
    rw [hb]
    rfl
  · intro cfg b hb
    unfold buttonMatches
    rw [hb]

/-- Witness for C9 at concrete inputs: button 2 is configured; clicking
2 notifies with the stored output and suppresses the refresh, clicking 1
does nothing, and an unset configuration matches no button. -/
theorem C9_witness :
    on_click { button_show_notification := some 2 } ⟨some "last"⟩ 2 =
      .ok [.notifyUser "last", .preventRefresh] ∧
    on_click { button_show_notification := some 2 } ⟨some "last"⟩ 1 =
      .ok [] ∧
    buttonMatches {} 3 = false :=
  ⟨C9_click_effects.1 { button_show_notification := some 2 } ⟨some "last"⟩
      "last" 2 rfl rfl,
   C9_click_effects.2.1 { button_show_notification := some 2 } ⟨some "last"⟩
      1 rfl,
   C9_click_effects.2.2 {} 3 rfl⟩

/-- C10: when a failed command execution carries an empty-string stdout,
the empty string is falsy in `e.output or e.error`, so the reported
diagnostic is the captured stderr, whatever it is. -/
theorem C10_empty_stdout_reports_stderr
    (jsonLoads : String → Except String JsonVal)
    (cfg : Config) (st : ModuleState) (now : Nat) (stderr : String) :
    (external_script jsonLoads cfg st
        (.error { output := "", error := stderr }) now).1 =
      .errorReported stderr := by
  rw [external_script_err]
  simp [errText]

end ExternalScript
